import Mathlib

/-!
Verification of the resilient browser-interaction layer
(retry decorator, wait engine, element interaction facade, driver factory)
against its natural-language specification.

The Python source is shallowly embedded: each wrapped operation is a
function from the attempt number to an `Except`-valued outcome, supplied
by an abstract environment describing how the browser behaves on each
attempt; exceptions are an inductive kind; the retry loop of
utils/retry_decorator.py is a structurally recursive function that also
counts invocations and inter-attempt sleeps.
-/

deriving instance DecidableEq for Except

namespace Insider

/-- Exception kinds raised by the selenium layer, as used by the source.
`otherExc` stands for any exception kind outside the named ones
(e.g. WebDriverException), `valueError` for the configuration error
raised by the driver factory. -/
inductive Exc where
  | timeoutExc
  | elementClickIntercepted
  | staleElementReference
  | valueError (msg : String)
  | otherExc (n : Nat)
deriving DecidableEq, Repr

/-- An opaque driver-issued element handle. -/
structure Handle where
  id : Nat
deriving DecidableEq, Repr

/-- Outcome of running a (possibly retried) operation: the final result,
how many times the wrapped body was invoked, and how many inter-attempt
sleeps (time.sleep(delay)) were performed. -/
structure RunResult (α : Type) where
  result : Except Exc α
  invocations : Nat
  sleeps : Nat
deriving Repr

namespace settings

/-- config/settings.py MAX_RETRIES default. -/
def MAX_RETRIES : Nat := 3

/-- config/settings.py RETRY_DELAY default. -/
def RETRY_DELAY : Nat := 2

/-- config/settings.py EXPLICIT_WAIT default. -/
def EXPLICIT_WAIT : Nat := 20

/-- config/settings.py BROWSER default. -/
def BROWSER : String := "chrome"

end settings

/-- The loop body of utils/retry_decorator.py, lines 75-100:
for attempt in range(max_attempts + 1): try func; on an exception in the
caught set, if attempts remain sleep and continue, else fall out of the
loop and re-raise the last exception; an exception outside the caught set
escapes the try and propagates at once. `remaining` is
max_attempts - attempt, so the loop starts at `retryLoop excSet op 0 max_attempts`. -/
def retryLoop {α : Type} (excSet : Exc → Bool) (op : Nat → Except Exc α) :
    Nat → Nat → RunResult α
  | attempt, remaining =>
    match op attempt with
    | .ok v => ⟨.ok v, 1, 0⟩
    | .error e =>
      if excSet e then
        match remaining with
        | 0 => ⟨.error e, 1, 0⟩
        | r + 1 =>
          let rest := retryLoop excSet op (attempt + 1) r
          ⟨rest.result, rest.invocations + 1, rest.sleeps + 1⟩
      else ⟨.error e, 1, 0⟩

/-- The retry decorator of utils/retry_decorator.py applied to an
operation: max_attempts + 1 total tries, catching exactly the kinds in
`excSet`. -/
def retry {α : Type} (maxAttempts : Nat) (excSet : Exc → Bool) (op : Nat → Except Exc α) :
    RunResult α :=
  retryLoop excSet op 0 maxAttempts

/-- Transient set used by BasePage.click (line 57). -/
def clickTransient (e : Exc) : Bool :=
  match e with
  | .elementClickIntercepted => true
  | .staleElementReference => true
  | _ => false

/-- Transient set used by BasePage.type, BasePage.find (lines 113, 137). -/
def staleOnly (e : Exc) : Bool :=
  match e with
  | .staleElementReference => true
  | _ => false

/-- One retryLoop step on a successful attempt. -/
lemma retryLoop_ok {α : Type} (excSet : Exc → Bool) (op : Nat → Except Exc α)
    (attempt remaining : Nat) (v : α) (hok : op attempt = .ok v) :
    retryLoop excSet op attempt remaining = ⟨.ok v, 1, 0⟩ := by
  rw [retryLoop, hok]

/-- One retryLoop step on an uncaught exception: immediate propagation. -/
lemma retryLoop_uncaught {α : Type} (excSet : Exc → Bool) (op : Nat → Except Exc α)
    (attempt remaining : Nat) (e : Exc) (herr : op attempt = .error e)
    (hns : excSet e = false) :
    retryLoop excSet op attempt remaining = ⟨.error e, 1, 0⟩ := by
  rw [retryLoop, herr]
  simp [hns]

/-- One retryLoop step on a caught exception with no attempts left. -/
lemma retryLoop_caught_last {α : Type} (excSet : Exc → Bool) (op : Nat → Except Exc α)
    (attempt : Nat) (e : Exc) (herr : op attempt = .error e) (hc : excSet e = true) :
    retryLoop excSet op attempt 0 = ⟨.error e, 1, 0⟩ := by
  rw [retryLoop, herr]
  simp [hc]

/-- One retryLoop step on a caught exception with attempts left. -/
lemma retryLoop_caught_step {α : Type} (excSet : Exc → Bool) (op : Nat → Except Exc α)
    (attempt r : Nat) (e : Exc) (herr : op attempt = .error e) (hc : excSet e = true) :
    retryLoop excSet op attempt (r + 1) =
      ⟨(retryLoop excSet op (attempt + 1) r).result,
       (retryLoop excSet op (attempt + 1) r).invocations + 1,
       (retryLoop excSet op (attempt + 1) r).sleeps + 1⟩ := by
  rw [retryLoop, herr]
  simp [hc]

/-- If the operation fails with caught exceptions on the k attempts
starting at `attempt` and succeeds on attempt + k, with k ≤ remaining,
the loop returns the success after exactly k + 1 invocations and k sleeps. -/
lemma retryLoop_ok_after {α : Type} (excSet : Exc → Bool) (op : Nat → Except Exc α)
    (efail : Nat → Exc) (v : α) :
    ∀ (k attempt remaining : Nat), k ≤ remaining →
    (∀ i < k, op (attempt + i) = .error (efail (attempt + i)) ∧
      excSet (efail (attempt + i)) = true) →
    op (attempt + k) = .ok v →
    retryLoop excSet op attempt remaining = ⟨.ok v, k + 1, k⟩ := by
  intro k
  induction k with
  | zero =>
    intro attempt remaining _ _ hok
    exact retryLoop_ok excSet op attempt remaining v (by simpa using hok)
  | succ n ih =>
    intro attempt remaining hk hfail hok
    obtain ⟨r, rfl⟩ : ∃ r, remaining = r + 1 :=
      ⟨remaining - 1, (Nat.succ_pred_eq_of_pos (Nat.lt_of_lt_of_le (Nat.succ_pos n) hk)).symm⟩
    obtain ⟨h0, hc0⟩ := hfail 0 (Nat.succ_pos n)
    rw [retryLoop_caught_step excSet op attempt r (efail (attempt + 0))
      (by simpa using h0) (by simpa using hc0)]
    have hrec := ih (attempt + 1) r (Nat.le_of_succ_le_succ hk)
      (fun i hi => by
        have := hfail (i + 1) (Nat.succ_lt_succ hi)
        constructor
        · have h1 := this.1
          have harith : attempt + (i + 1) = attempt + 1 + i := by omega
          rw [harith] at h1
          exact h1
        · have h2 := this.2
          have harith : attempt + (i + 1) = attempt + 1 + i := by omega
          rw [harith] at h2
          exact h2)
      (by
        have harith : attempt + (n + 1) = attempt + 1 + n := by omega
        rw [harith] at hok
        exact hok)
    rw [hrec]

/-- If the operation fails with a caught exception on every attempt
through attempt + remaining, the loop raises the exception of the last
attempt after remaining + 1 invocations and remaining sleeps. -/
lemma retryLoop_all_fail {α : Type} (excSet : Exc → Bool) (op : Nat → Except Exc α)
    (efail : Nat → Exc) :
    ∀ (remaining attempt : Nat),
    (∀ i ≤ remaining, op (attempt + i) = .error (efail (attempt + i)) ∧
      excSet (efail (attempt + i)) = true) →
    retryLoop excSet op attempt remaining =
      ⟨.error (efail (attempt + remaining)), remaining + 1, remaining⟩ := by
  intro remaining
  induction remaining with
  | zero =>
    intro attempt hfail
    obtain ⟨h0, hc0⟩ := hfail 0 (Nat.le_refl 0)
    exact retryLoop_caught_last excSet op attempt (efail (attempt + 0))
      (by simpa using h0) (by simpa using hc0)
  | succ r ih =>
    intro attempt hfail
    obtain ⟨h0, hc0⟩ := hfail 0 (Nat.zero_le _)
    rw [retryLoop_caught_step excSet op attempt r (efail (attempt + 0))
      (by simpa using h0) (by simpa using hc0)]
    have hrec := ih (attempt + 1)
      (fun i hi => by
        have := hfail (i + 1) (Nat.succ_le_succ hi)
        have harith : attempt + (i + 1) = attempt + 1 + i := by omega
        rw [harith] at this
        exact this)
    rw [hrec]
    have harith : attempt + 1 + r = attempt + (r + 1) := by omega
    rw [harith]

/-! Element interaction facade (src/pages/base_page.py). Each operation
receives an abstract per-attempt environment describing how the browser
responds on that attempt; the operation body is then wrapped with the
retry decorator exactly as the source decorates it. -/

/-- How the browser behaves on one attempt of BasePage.click:
the outcome of wait.until(element_to_be_clickable), of element.click()
on the located handle, and of the script-level click fallback on a
handle. -/
structure ClickEnv where
  waitClickable : Except Exc Handle
  nativeClick : Handle → Except Exc Unit
  jsClick : Handle → Except Exc Unit

/-- The body of BasePage.click (lines 72-82): wait for clickable, try the
native click, and on ElementClickInterceptedException only, fall back to
a JavaScript click on the same already-located handle. Any other
exception of the native click propagates out of the body. -/
def clickBody (env : ClickEnv) : Except Exc Unit :=
  match env.waitClickable with
  | .error e => .error e
  | .ok element =>
    match env.nativeClick element with
    | .ok _ => .ok ()
    | .error .elementClickIntercepted => env.jsClick element
    | .error e => .error e

namespace BasePage

/-- BasePage.click (line 57): the click body wrapped with
retry(exceptions=(ElementClickInterceptedException, StaleElementReferenceException)),
max_attempts defaulting to settings.MAX_RETRIES. -/
def click (envs : Nat → ClickEnv) : RunResult Unit :=
  retry settings.MAX_RETRIES clickTransient (fun attempt => clickBody (envs attempt))

end BasePage

/-- How the browser behaves on one attempt of BasePage.type: the outcome
of wait.until(visibility_of_element_located), of element.clear() and of
element.send_keys(text) on the located handle. -/
structure TypeEnv where
  waitVisible : Except Exc Handle
  clearField : Handle → Except Exc Unit
  sendKeys : Handle → Except Exc Unit

/-- The body of BasePage.type (lines 127-135): wait for visibility, clear
the field when clear_first is set, then send the keys. -/
def typeBody (env : TypeEnv) (clearFirst : Bool) : Except Exc Unit :=
  match env.waitVisible with
  | .error e => .error e
  | .ok element =>
    if clearFirst then
      match env.clearField element with
      | .error e => .error e
      | .ok _ => env.sendKeys element
    else env.sendKeys element

namespace BasePage

/-- BasePage.type (line 113): the type body wrapped with
retry(exceptions=(StaleElementReferenceException,)). -/
def typeText (envs : Nat → TypeEnv) (clearFirst : Bool) : RunResult Unit :=
  retry settings.MAX_RETRIES staleOnly (fun attempt => typeBody (envs attempt) clearFirst)

/-- BasePage.find (line 137): wait.until(presence_of_element_located)
wrapped with retry(exceptions=(StaleElementReferenceException,)).
`waits attempt` is the outcome of the presence wait on that attempt. -/
def find (waits : Nat → Except Exc Handle) : RunResult Handle :=
  retry settings.MAX_RETRIES staleOnly waits

/-- BasePage.get_text (lines 243-258): element = self.find(...), then
return element.text. The method itself carries NO retry decorator; only
the find call inside it is retried. `textOf` is the outcome of reading
.text on a handle. -/
def get_text (waits : Nat → Except Exc Handle) (textOf : Handle → Except Exc String) :
    Except Exc String :=
  match (find waits).result with
  | .error e => .error e
  | .ok element => textOf element

/-- BasePage.get_attribute (lines 260-276): element = self.find(...),
then return element.get_attribute(attribute). No retry decorator on the
method itself. -/
def get_attribute (waits : Nat → Except Exc Handle)
    (attrOf : Handle → Except Exc (Option String)) : Except Exc (Option String) :=
  match (find waits).result with
  | .error e => .error e
  | .ok element => attrOf element

end BasePage

/-- Modelled from the spec, for comparison with BasePage.get_text: the
claimed semantics of read-text in which the WHOLE unit (locate under the
attached predicate, then read the text of the located handle) is the
retried operation, so a StaleElementReferenceException raised during the
read also restarts the unit. -/
def get_text_wholeUnitClaim (waits : Nat → Except Exc Handle)
    (textOf : Handle → Except Exc String) : RunResult String :=
  retry settings.MAX_RETRIES staleOnly (fun attempt =>
    match waits attempt with
    | .error e => .error e
    | .ok element => textOf element)

/-- Python falsiness combination `timeout or self.timeout` for an
optional integer timeout argument: None and 0 are falsy and fall back to
the default. -/
def pyOrNat (t : Option Nat) (d : Nat) : Nat :=
  match t with
  | none => d
  | some n => if n = 0 then d else n

/-- Python falsiness combination `browser_name or settings.BROWSER` for
an optional string: None and the empty string are falsy. -/
def pyOrStr (s : Option String) (d : String) : String :=
  match s with
  | none => d
  | some v => if v = "" then d else v

/-- The wait engine, WebDriverWait(driver, waitTime).until(condition),
for a condition that becomes (and stays) satisfied at time `readyAt`
(none if never): returns the handle if the condition is met within
waitTime, else raises TimeoutException. -/
def waitUntil (readyAt : Option Nat) (waitTime : Nat) : Except Exc Handle :=
  match readyAt with
  | some t => if t ≤ waitTime then .ok ⟨t⟩ else .error .timeoutExc
  | none => .error .timeoutExc

namespace BasePage

/-- BasePage.exists (lines 175-199): wait_time = timeout or self.timeout;
try a presence wait with that time, return True on success, convert
TimeoutException (and only TimeoutException) to False. `appearsAt` is
when the element becomes present. -/
def existsCheck (defaultTimeout : Nat) (timeoutArg : Option Nat)
    (appearsAt : Option Nat) : Except Exc Bool :=
  let waitTime := pyOrNat timeoutArg defaultTimeout
  match waitUntil appearsAt waitTime with
  | .ok _ => .ok true
  | .error .timeoutExc => .ok false
  | .error e => .error e

/-- BasePage.wait_for_element_visible (lines 201-220):
wait_time = timeout or self.timeout, then a visibility wait with that
time. `visibleAt` is when the element becomes visible. -/
def wait_for_element_visible (defaultTimeout : Nat) (timeoutArg : Option Nat)
    (visibleAt : Option Nat) : Except Exc Handle :=
  waitUntil visibleAt (pyOrNat timeoutArg defaultTimeout)

/-- BasePage.wait_for_element_clickable (lines 222-241):
wait_time = timeout or self.timeout, then a clickability wait with that
time. `clickableAt` is when the element becomes clickable. -/
def wait_for_element_clickable (defaultTimeout : Nat) (timeoutArg : Option Nat)
    (clickableAt : Option Nat) : Except Exc Handle :=
  waitUntil clickableAt (pyOrNat timeoutArg defaultTimeout)

end BasePage

/-- Whether an element that becomes ready at `readyAt` is ready within
`w` time units (the readiness convention used by `waitUntil`). -/
def presentWithin (readyAt : Option Nat) (w : Nat) : Bool :=
  match readyAt with
  | some t => t ≤ w
  | none => false

/-- Python str.lower(), character by character (the browser names in this
development are ASCII). -/
def strToLower (s : String) : String :=
  String.mk (s.data.map Char.toLower)

/-- Which driver the factory would go on to construct. -/
inductive DriverResult where
  | chromeDriver
  | firefoxDriver
deriving DecidableEq, Repr

/-- utils/driver_factory.py get_driver (lines 42-53):
browser = (browser_name or settings.BROWSER).lower(); raise
ValueError for any browser outside the supported set, before any driver
construction; otherwise proceed to construct the matching driver. -/
def get_driver (browserName : Option String) (settingsBrowser : String) :
    Except Exc DriverResult :=
  let browser := strToLower (pyOrStr browserName settingsBrowser)
  if browser = "chrome" ∨ browser = "firefox" then
    if browser = "chrome" then .ok .chromeDriver else .ok .firefoxDriver
  else
    .error (.valueError ("Desteklenmeyen browser: " ++ browser))

namespace HomePage

/-- HomePage.accept_cookies_if_present (src/pages/home_page.py lines
54-65): try self.click(banner); except Exception: pass. `clickResult`
is the outcome of the wrapped click on the cookie banner. -/
def accept_cookies_if_present (clickResult : Except Exc Unit) : Except Exc Unit :=
  match clickResult with
  | .ok _ => .ok ()
  | .error _ => .ok ()

end HomePage

/-- Modelled from the spec, for comparison with
HomePage.accept_cookies_if_present: the claimed narrow semantics that
swallows only the element-absent failure (the presence/clickability wait
timing out because the banner is not there) and propagates every other
failure kind. -/
def accept_cookies_narrowClaim (clickResult : Except Exc Unit) : Except Exc Unit :=
  match clickResult with
  | .ok _ => .ok ()
  | .error .timeoutExc => .ok ()
  | .error e => .error e

/-! Claim theorems. -/

/-- C1: for every operation wrapped with retry(max_attempts=N) and every
transient-exception set, if the operation raises a caught exception on
each of its first k attempts (k ≤ N) and succeeds on attempt k + 1, the
wrapper returns that success value and the operation is invoked exactly
k + 1 times. -/
theorem retry_transient_then_success {α : Type} (N k : Nat) (hk : k ≤ N)
    (excSet : Exc → Bool) (op : Nat → Except Exc α) (efail : Nat → Exc) (v : α)
    (hfail : ∀ i < k, op i = .error (efail i) ∧ excSet (efail i) = true)
    (hok : op k = .ok v) :
    (retry N excSet op).result = .ok v ∧ (retry N excSet op).invocations = k + 1 := by
  have h := retryLoop_ok_after excSet op efail v k 0 N hk
    (fun i hi => by simpa using hfail i hi) (by simpa using hok)
  rw [retry, h]
  exact ⟨rfl, rfl⟩

/-- An operation that raises StaleElementReferenceException on its first
attempt and returns 42 afterwards. -/
def opStaleOnceThenOk : Nat → Except Exc Nat :=
  fun i => if i = 0 then .error .staleElementReference else .ok 42

/-- Witness for C1 at N = 2, k = 1. -/
theorem retry_transient_then_success_witness :
    (retry 2 staleOnly opStaleOnceThenOk).result = .ok 42 ∧
      (retry 2 staleOnly opStaleOnceThenOk).invocations = 2 :=
  retry_transient_then_success 2 1 (by decide) staleOnly opStaleOnceThenOk
    (fun _ => .staleElementReference) 42 (by decide) (by decide)

/-- C2: if the wrapped operation raises a caught (transient) exception on
every one of the N + 1 attempts, the wrapper invokes it exactly N + 1
times and re-raises the exception of the last attempt unchanged. -/
theorem retry_exhausted_reraises_last {α : Type} (N : Nat)
    (excSet : Exc → Bool) (op : Nat → Except Exc α) (efail : Nat → Exc)
    (hfail : ∀ i ≤ N, op i = .error (efail i) ∧ excSet (efail i) = true) :
    (retry N excSet op).result = .error (efail N) ∧
      (retry N excSet op).invocations = N + 1 := by
  have h := retryLoop_all_fail excSet op efail N 0 (fun i hi => by simpa using hfail i hi)
  rw [retry, h]
  exact ⟨by simp, rfl⟩

/-- An operation that always raises StaleElementReferenceException. -/
def opAlwaysStale : Nat → Except Exc Nat :=
  fun _ => .error .staleElementReference

/-- Witness for C2 at N = 2. -/
theorem retry_exhausted_reraises_last_witness :
    (retry 2 staleOnly opAlwaysStale).result = .error .staleElementReference ∧
      (retry 2 staleOnly opAlwaysStale).invocations = 3 :=
  retry_exhausted_reraises_last 2 staleOnly opAlwaysStale
    (fun _ => .staleElementReference) (by decide)

/-- C3: if the wrapped operation raises an exception outside the caught
set on the first attempt, the wrapper propagates it after exactly one
invocation with no inter-attempt sleep, regardless of N. -/
theorem retry_nontransient_immediate {α : Type} (N : Nat)
    (excSet : Exc → Bool) (op : Nat → Except Exc α) (e : Exc)
    (h0 : op 0 = .error e) (hns : excSet e = false) :
    (retry N excSet op).result = .error e ∧
      (retry N excSet op).invocations = 1 ∧ (retry N excSet op).sleeps = 0 := by
  rw [retry, retryLoop_uncaught excSet op 0 N e h0 hns]
  exact ⟨rfl, rfl, rfl⟩

/-- An operation that raises TimeoutException on every attempt. -/
def opAlwaysTimeout : Nat → Except Exc Nat :=
  fun _ => .error .timeoutExc

/-- Witness for C3 at N = 5 with the stale-only caught set. -/
theorem retry_nontransient_immediate_witness :
    (retry 5 staleOnly opAlwaysTimeout).result = .error .timeoutExc ∧
      (retry 5 staleOnly opAlwaysTimeout).invocations = 1 ∧
      (retry 5 staleOnly opAlwaysTimeout).sleeps = 0 :=
  retry_nontransient_immediate 5 staleOnly opAlwaysTimeout .timeoutExc rfl rfl

/-- C5: when the clickability wait locates a handle, the native click on
it raises ElementClickInterceptedException and the JavaScript fallback
click on the same handle succeeds, the whole click succeeds with the
body invoked exactly once and the retry counter untouched (no sleeps). -/
theorem click_intercepted_fallback_no_retry (envs : Nat → ClickEnv) (h : Handle)
    (hw : (envs 0).waitClickable = .ok h)
    (hn : (envs 0).nativeClick h = .error .elementClickIntercepted)
    (hj : (envs 0).jsClick h = .ok ()) :
    (BasePage.click envs).result = .ok () ∧
      (BasePage.click envs).invocations = 1 ∧ (BasePage.click envs).sleeps = 0 := by
  have hbody : clickBody (envs 0) = .ok () := by
    simp only [clickBody, hw, hn]
    exact hj
  have hres := retryLoop_ok clickTransient (fun attempt => clickBody (envs attempt)) 0
    settings.MAX_RETRIES () (by simpa using hbody)
  rw [BasePage.click, retry, hres]
  exact ⟨rfl, rfl, rfl⟩

/-- A click environment whose native click is always intercepted and
whose JavaScript fallback always succeeds. -/
def envInterceptedJsOk : Nat → ClickEnv :=
  fun _ => ⟨.ok ⟨0⟩, fun _ => .error .elementClickIntercepted, fun _ => .ok ()⟩

/-- Witness for C5. -/
theorem click_intercepted_fallback_no_retry_witness :
    (BasePage.click envInterceptedJsOk).result = .ok () ∧
      (BasePage.click envInterceptedJsOk).invocations = 1 ∧
      (BasePage.click envInterceptedJsOk).sleeps = 0 :=
  click_intercepted_fallback_no_retry envInterceptedJsOk ⟨0⟩ rfl rfl rfl

/-- C6: when the visibility wait of the type operation times out on
every attempt, the operation fails with TimeoutException after a single
invocation of its body: TimeoutException is not in the caught set of the
type operation (StaleElementReferenceException only), so the retry
wrapper does not re-invoke it. -/
theorem type_timeout_single_invocation (envs : Nat → TypeEnv) (clearFirst : Bool)
    (hw : ∀ i, (envs i).waitVisible = .error .timeoutExc) :
    (BasePage.typeText envs clearFirst).result = .error .timeoutExc ∧
      (BasePage.typeText envs clearFirst).invocations = 1 ∧
      (BasePage.typeText envs clearFirst).sleeps = 0 := by
  have hbody : typeBody (envs 0) clearFirst = .error .timeoutExc := by
    simp only [typeBody, hw 0]
  have hres := retryLoop_uncaught staleOnly
    (fun attempt => typeBody (envs attempt) clearFirst) 0 settings.MAX_RETRIES
    .timeoutExc (by simpa using hbody) rfl
  rw [BasePage.typeText, retry, hres]
  exact ⟨rfl, rfl, rfl⟩

/-- A type environment whose visibility wait always times out. -/
def envNeverVisible : Nat → TypeEnv :=
  fun _ => ⟨.error .timeoutExc, fun _ => .ok (), fun _ => .ok ()⟩

/-- Witness for C6. -/
theorem type_timeout_single_invocation_witness :
    (BasePage.typeText envNeverVisible true).result = .error .timeoutExc ∧
      (BasePage.typeText envNeverVisible true).invocations = 1 ∧
      (BasePage.typeText envNeverVisible true).sleeps = 0 :=
  type_timeout_single_invocation envNeverVisible true (fun _ => rfl)

/-- C4 counterexample: with the default session timeout of 20 and an
element that becomes present at time 3, exists with timeout=0 returns
True even though the element is not present within 0: timeout=0 is
falsy, so the default timeout is used instead of a zero-second wait. -/
theorem exists_timeout_zero_counterexample :
    BasePage.existsCheck settings.EXPLICIT_WAIT (some 0) (some 3) = .ok true ∧
      presentWithin (some 3) 0 = false := by
  exact ⟨rfl, rfl⟩

/-- C4 amended: for every timeout argument, exists never raises (it
always returns a boolean) and returns True exactly when the element
becomes present within the EFFECTIVE wait time, which is the passed
timeout if it is a positive number and the session default if it is
None or 0. -/
theorem exists_never_raises_reports_presence (d : Nat) (targ : Option Nat)
    (appearsAt : Option Nat) :
    BasePage.existsCheck d targ appearsAt =
      .ok (presentWithin appearsAt (pyOrNat targ d)) := by
  cases appearsAt with
  | none => rfl
  | some t =>
    by_cases ht : t ≤ pyOrNat targ d
    · simp [BasePage.existsCheck, waitUntil, presentWithin, ht]
    · simp [BasePage.existsCheck, waitUntil, presentWithin, ht]

/-- A presence wait that locates a fresh handle on every attempt. -/
def waitsFreshHandle : Nat → Except Exc Handle :=
  fun i => .ok ⟨i⟩

/-- A text read that raises StaleElementReferenceException on handle 0
and succeeds on every other handle. -/
def textStaleOnHandleZero : Handle → Except Exc String :=
  fun h => if h.id = 0 then .error .staleElementReference else .ok "Quality Assurance"

/-- C7 counterexample: the locate step succeeds at once with handle 0,
the read of that handle raises StaleElementReferenceException, and
get_text propagates it instead of re-executing the unit — while the
whole-unit-retried semantics claimed by the spec would re-locate and
return the successful read of the fresh handle. -/
theorem get_text_read_stale_counterexample :
    BasePage.get_text waitsFreshHandle textStaleOnHandleZero =
        .error .staleElementReference ∧
      (get_text_wholeUnitClaim waitsFreshHandle textStaleOnHandleZero).result =
        .ok "Quality Assurance" := by
  exact ⟨rfl, rfl⟩

/-- C7 amended: in read-text and read-attribute only the locate step
(find) is retried on StaleElementReferenceException; the read of the
located handle is performed exactly once and its outcome — including a
StaleElementReferenceException — is returned to the caller as is,
without re-executing the unit. -/
theorem get_text_locate_retried_read_once (waits : Nat → Except Exc Handle)
    (textOf : Handle → Except Exc String) (attrOf : Handle → Except Exc (Option String))
    (k : Nat) (hk : k ≤ settings.MAX_RETRIES) (h : Handle)
    (hfail : ∀ i < k, waits i = .error .staleElementReference)
    (hok : waits k = .ok h) :
    BasePage.get_text waits textOf = textOf h ∧
      BasePage.get_attribute waits attrOf = attrOf h := by
  have hfind := retryLoop_ok_after staleOnly waits (fun _ => .staleElementReference) h
    k 0 settings.MAX_RETRIES hk
    (fun i hi => ⟨by simpa using hfail i hi, rfl⟩) (by simpa using hok)
  constructor
  · rw [BasePage.get_text, BasePage.find, retry, hfind]
  · rw [BasePage.get_attribute, BasePage.find, retry, hfind]

/-- A presence wait that is stale on attempt 0 and locates handle 7
afterwards. -/
def waitsStaleThenSeven : Nat → Except Exc Handle :=
  fun i => if i = 0 then .error .staleElementReference else .ok ⟨7⟩

/-- Witness for the amended C7 at k = 1: the read outcome (here itself a
StaleElementReferenceException for the text, a value for the attribute)
is returned unchanged. -/
theorem get_text_locate_retried_read_once_witness :
    BasePage.get_text waitsStaleThenSeven (fun _ => .error .staleElementReference) =
        .error .staleElementReference ∧
      BasePage.get_attribute waitsStaleThenSeven (fun _ => .ok (some "qa")) =
        .ok (some "qa") :=
  get_text_locate_retried_read_once waitsStaleThenSeven
    (fun _ => .error .staleElementReference) (fun _ => .ok (some "qa"))
    1 (by decide) ⟨7⟩ (by decide) (by decide)

/-- C8 counterexample: a failure of the wrapped click that is not the
element-absent kind (an arbitrary WebDriverException-like kind) is
swallowed by accept_cookies_if_present, which returns normally, whereas
the narrow swallow claimed by the spec would propagate it. -/
theorem accept_cookies_swallow_counterexample :
    HomePage.accept_cookies_if_present (.error (.otherExc 0)) = .ok () ∧
      accept_cookies_narrowClaim (.error (.otherExc 0)) = .error (.otherExc 0) := by
  exact ⟨rfl, rfl⟩

/-- C8 amended: accept_cookies_if_present catches Exception as a whole:
it returns normally for EVERY outcome of the wrapped click, swallowing
all failure kinds, not only the element-absent one. -/
theorem accept_cookies_blanket_swallow (clickResult : Except Exc Unit) :
    HomePage.accept_cookies_if_present clickResult = .ok () := by
  cases clickResult with
  | ok v => rfl
  | error e => rfl

/-- C9 counterexample: the empty browser name is falsy in Python, so
get_driver("") silently falls back to the configured default browser
(chrome) and succeeds, even though the lower-cased requested name is
neither chrome nor firefox. -/
theorem get_driver_empty_name_counterexample :
    get_driver (some "") "chrome" = .ok .chromeDriver ∧
      strToLower "" ≠ "chrome" ∧ strToLower "" ≠ "firefox" := by
  exact ⟨rfl, by decide, by decide⟩

/-- C9 amended: for every NON-EMPTY browser name whose lower-cased form
is neither chrome nor firefox, get_driver fails fast with ValueError
before constructing any driver and without retry; for names lowering to
a supported browser the factory proceeds with that driver, so the check
is case-insensitive. -/
theorem get_driver_unsupported_fails_fast (s d : String) :
    (s ≠ "" → strToLower s ≠ "chrome" → strToLower s ≠ "firefox" →
      get_driver (some s) d =
        .error (.valueError ("Desteklenmeyen browser: " ++ strToLower s))) ∧
    (strToLower s = "chrome" → get_driver (some s) d = .ok .chromeDriver) ∧
    (strToLower s = "firefox" → get_driver (some s) d = .ok .firefoxDriver) := by
  refine ⟨?_, ?_, ?_⟩
  · intro hne hc hf
    simp [get_driver, pyOrStr, hne, hc, hf]
  · intro hc
    have hne : s ≠ "" := by
      intro he
      rw [he] at hc
      exact (by decide : strToLower "" ≠ "chrome") hc
    simp [get_driver, pyOrStr, hne, hc]
  · intro hf
    have hne : s ≠ "" := by
      intro he
      rw [he] at hf
      exact (by decide : strToLower "" ≠ "firefox") hf
    simp [get_driver, pyOrStr, hne, hf]

/-- Witness for the amended C9: an unsupported name fails fast, and a
mixed-case chrome is accepted. -/
theorem get_driver_unsupported_fails_fast_witness :
    get_driver (some "Safari") "chrome" =
        .error (.valueError ("Desteklenmeyen browser: " ++ strToLower "Safari")) ∧
      get_driver (some "ChRoMe") "firefox" = .ok .chromeDriver :=
  ⟨(get_driver_unsupported_fails_fast "Safari" "chrome").1
      (by decide) (by decide) (by decide),
   (get_driver_unsupported_fails_fast "ChRoMe" "firefox").2.1 (by decide)⟩

/-- C10: for each of the three facade operations taking an optional
timeout (exists, wait_for_element_visible, wait_for_element_clickable),
passing timeout=0 behaves identically to passing timeout=None: the
falsiness combination `timeout or self.timeout` makes both fall back to
the session default. -/
theorem timeout_zero_same_as_none (d : Nat)
    (appearsAt visibleAt clickableAt : Option Nat) :
    BasePage.existsCheck d (some 0) appearsAt =
        BasePage.existsCheck d none appearsAt ∧
      BasePage.wait_for_element_visible d (some 0) visibleAt =
        BasePage.wait_for_element_visible d none visibleAt ∧
      BasePage.wait_for_element_clickable d (some 0) clickableAt =
        BasePage.wait_for_element_clickable d none clickableAt := by
  exact ⟨rfl, rfl, rfl⟩

end Insider
